import Mathlib

/-!
Verification development for the AirQualityVsAgeDemographics repository.

The repository is a set of Python pipelines that read PurpleAir sensor CSV
exports, EPA AQS records and U.S. Census ACS tables, correct and aggregate
PM2.5 readings, merge census-tract geometry with demographic counts, and
render static and interactive maps.

Below, the pure data-flow core of each pipeline step is embedded shallowly:
  - dataframe columns of floating-point numbers become lists of rationals,
    with `Option` marking NaN entries;
  - the per-sensor-file processing loops of
    `PurpleAirDataAnalysis/main.py`, `PurpleAirDataAnalysis/purpleair_analysis.py`
    and `calculate_statistics.py` become folds over a list of `SensorFile`s;
  - the geo-census merge of `PurpleAirDataAnalysis/main.py` /
    `EPADataAnalysis/main.py` becomes a join + filters over lists of records;
  - the EPA date-window fallback of `EPADataAnalysis/main.py` becomes an
    explicit conditional;
  - the AQI bucketing helpers are transcribed directly.
-/

/-! ## Sensor data model

A PurpleAir per-sensor CSV export, as seen by the processing loops.
`filenameToken` is the result of `int(filename.split()[0])`: `none` when the
leading token of the file name does not parse as an integer (in the Python
code that raises and the `except` branch skips the file).  `hasPm25Col`
records whether the `pm2.5_cf_1` column is present.  `pm25Vals` is that
column, with `none` for NaN entries.  A CSV that cannot be read at all
behaves, for the loops below, like one without the `pm2.5_cf_1` column:
both paths skip the file and count it.  -/
structure SensorFile where
  filenameToken : Option ℤ
  hasPm25Col : Bool
  pm25Vals : List (Option ℚ)
deriving DecidableEq, Repr

/-- One kept sensor reading: the dict appended to `air_data`
(`lat`, `lon`, `pm25`, `sensor_id`). -/
structure AirRow where
  lat : ℚ
  lon : ℚ
  pm25 : ℚ
  sensor_id : ℤ
deriving DecidableEq, Repr

/-- The mean of a dataframe column as computed by pandas `Series.mean()`:
NaN entries are skipped, and the mean of no valid entries is NaN (`none`). -/
def colMean (vs : List (Option ℚ)) : Option ℚ :=
  let xs := vs.reduceOption
  if xs.isEmpty then none else some (xs.sum / xs.length)

/-- Constant `PM25_CORRECTION_SLOPE` from `purpleair_analysis.py` (0.778). -/
def PM25_CORRECTION_SLOPE : ℚ := 778 / 1000

/-- Constant `PM25_CORRECTION_INTERCEPT` from `purpleair_analysis.py` (2.65). -/
def PM25_CORRECTION_INTERCEPT : ℚ := 265 / 100

/-- Constant `PM25_OUTLIER_THRESHOLD` from `purpleair_analysis.py` (500 µg/m³). -/
def PM25_OUTLIER_THRESHOLD : ℚ := 500

/-! ## The three copies of the PurpleAir processing loop -/

/-- Accumulator of the loop in `purpleair_analysis.process_purpleair_data`:
kept rows plus the `processed`, `skipped` and `outliers` counters. -/
structure LibAcc where
  air_data : List AirRow
  processed : ℕ
  skipped : ℕ
  outliers : ℕ
deriving DecidableEq, Repr

/-- One iteration of the loop body of
`purpleair_analysis.process_purpleair_data` (lines 89-131): parse the sensor
id from the file name, look up coordinates, require the `pm2.5_cf_1` column,
take its mean, apply the correction, drop corrected values above the outlier
threshold, and otherwise append the row.  Every rejected file increments
`skipped` (or, for the threshold test, `outliers`) and the loop continues. -/
def libStep (sensor_lookup : ℤ → Option (ℚ × ℚ)) (acc : LibAcc) (f : SensorFile) :
    LibAcc :=
  match f.filenameToken with
  | none => { acc with skipped := acc.skipped + 1 }
  | some sensor_id =>
    match sensor_lookup sensor_id with
    | none => { acc with skipped := acc.skipped + 1 }
    | some (lat, lon) =>
      if f.hasPm25Col = false then { acc with skipped := acc.skipped + 1 }
      else
        match colMean f.pm25Vals with
        | none => { acc with skipped := acc.skipped + 1 }
        | some raw_pm25 =>
          let corrected_pm25 :=
            PM25_CORRECTION_SLOPE * raw_pm25 + PM25_CORRECTION_INTERCEPT
          if corrected_pm25 > PM25_OUTLIER_THRESHOLD then
            { acc with outliers := acc.outliers + 1 }
          else
            { acc with
                air_data := acc.air_data ++
                  [⟨lat, lon, corrected_pm25, sensor_id⟩],
                processed := acc.processed + 1 }

/-- Function `process_purpleair_data` of `purpleair_analysis.py`: fold the loop body
over the directory's CSV files, starting from empty accumulators. -/
def process_purpleair_data (sensor_lookup : ℤ → Option (ℚ × ℚ))
    (csv_files : List SensorFile) : LibAcc :=
  csv_files.foldl (libStep sensor_lookup) ⟨[], 0, 0, 0⟩

/-- Accumulator of the loop in `main.process_purpleair_data`
(`PurpleAirDataAnalysis/main.py`): this copy has no separate outlier
counter, outliers increment `skipped`. -/
structure MainAcc where
  air_data : List AirRow
  processed : ℕ
  skipped : ℕ
deriving DecidableEq, Repr

/-- One iteration of the loop body of `main.process_purpleair_data`
(`PurpleAirDataAnalysis/main.py` lines 204-257), with the numeric literals
(0.778, 2.65, 500) written inline as in that file. -/
def mainStep (sensor_lookup : ℤ → Option (ℚ × ℚ)) (acc : MainAcc) (f : SensorFile) :
    MainAcc :=
  match f.filenameToken with
  | none => { acc with skipped := acc.skipped + 1 }
  | some sensor_id =>
    match sensor_lookup sensor_id with
    | none => { acc with skipped := acc.skipped + 1 }
    | some (lat, lon) =>
      if f.hasPm25Col = false then { acc with skipped := acc.skipped + 1 }
      else
        match colMean f.pm25Vals with
        | none => { acc with skipped := acc.skipped + 1 }
        | some raw_pm25 =>
          let corrected_pm25 := (778 / 1000 : ℚ) * raw_pm25 + 265 / 100
          if corrected_pm25 > 500 then
            { acc with skipped := acc.skipped + 1 }
          else
            { acc with
                air_data := acc.air_data ++
                  [⟨lat, lon, corrected_pm25, sensor_id⟩],
                processed := acc.processed + 1 }

/-- Function `process_purpleair_data` of `PurpleAirDataAnalysis/main.py`. -/
def process_purpleair_data_main (sensor_lookup : ℤ → Option (ℚ × ℚ))
    (csv_files : List SensorFile) : MainAcc :=
  csv_files.foldl (mainStep sensor_lookup) ⟨[], 0, 0⟩

/-- The per-file decision of the module-level PurpleAir loop of
`calculate_statistics.py` (lines 99-132): that copy keeps no counters, it
only accumulates `air_data`; a file contributes a row exactly when every
check passes. -/
def statsFileRow (sensor_lookup : ℤ → Option (ℚ × ℚ)) (f : SensorFile) :
    Option AirRow :=
  match f.filenameToken with
  | none => none
  | some sensor_id =>
    match sensor_lookup sensor_id with
    | none => none
    | some (lat, lon) =>
      if f.hasPm25Col = false then none
      else
        match colMean f.pm25Vals with
        | none => none
        | some raw_pm25 =>
          let corrected_pm25 := (778 / 1000 : ℚ) * raw_pm25 + 265 / 100
          if corrected_pm25 > 500 then none
          else some ⟨lat, lon, corrected_pm25, sensor_id⟩

/-- The `air_data` list built by the module-level loop of
`calculate_statistics.py`. -/
def stats_air_data (sensor_lookup : ℤ → Option (ℚ × ℚ))
    (csv_files : List SensorFile) : List AirRow :=
  csv_files.filterMap (statsFileRow sensor_lookup)

/-! ## AQI bucketing (`PurpleAirDataAnalysis/main.py`) -/

/-- Function `get_aqi_category` of `create_data_analysis_plots`
(`PurpleAirDataAnalysis/main.py` lines 320-326). -/
def get_aqi_category (pm25 : ℚ) : String :=
  if pm25 < 12 then "Good"
  else if pm25 < 35 then "Moderate"
  else "Unhealthy"

/-- Function `get_pm25_color` (`PurpleAirDataAnalysis/main.py` lines 591-603). -/
def get_pm25_color (pm25_value : ℚ) : String :=
  if pm25_value < 12 then "green"
  else if pm25_value < 35 then "orange"
  else "red"

/-- The AQI `status` string attached to each circle-marker popup in
`create_interactive_map` (`PurpleAirDataAnalysis/main.py` lines 709-714). -/
def marker_status (pm25 : ℚ) : String :=
  if pm25 < 12 then "Good"
  else if pm25 < 35 then "Moderate"
  else "Unhealthy for Sensitive Groups"

/-- The colour/label association of the interactive map's `legend_html`
(`PurpleAirDataAnalysis/main.py` lines 754-767): green = Good,
orange = Moderate, red = Unhealthy. -/
def legend_entries : List (String × String) :=
  [("green", "Good"), ("orange", "Moderate"), ("red", "Unhealthy")]

/-! ## Geo-census merge (`merge_geo_and_census`)

`PurpleAirDataAnalysis/main.py` lines 111-149 and `EPADataAnalysis/main.py`
lines 125-159 are the same function up to the name of the population column
(`pop_80_plus` vs `pop_65_plus`); the field is called `pop_in_band` below.
Only the columns the function reads are modelled: the join key `GEOID`, the
polygon area (`merged.geometry.area`) and the population-in-band count. -/

/-- A census-tract polygon record of the filtered shapefile. -/
structure Tract where
  GEOID : String
  area_m2 : ℚ
deriving DecidableEq, Repr

/-- A processed census table row (output of `process_census_data`). -/
structure CensusRow where
  GEOID : String
  pop_in_band : ℚ
deriving DecidableEq, Repr

/-- A row of the merged frame. -/
structure MergedTract where
  GEOID : String
  area_m2 : ℚ
  pop_in_band : ℚ
deriving DecidableEq, Repr

/-- Pandas `gdf.merge(census_df, on='GEOID', how='inner')`: every pair of rows with
equal `GEOID` produces one output row, in left-frame order (pandas inner
join). -/
def inner_merge (gdf : List Tract) (census_df : List CensusRow) :
    List MergedTract :=
  gdf.flatMap fun g =>
    census_df.filterMap fun c =>
      if g.GEOID = c.GEOID then some ⟨g.GEOID, g.area_m2, c.pop_in_band⟩
      else none

/-- Ordered insertion, ascending by `le`. -/
def insertBy {α : Type} (le : α → α → Bool) (x : α) : List α → List α
  | [] => [x]
  | y :: ys => if le x y then x :: y :: ys else y :: insertBy le x ys

/-- Insertion sort, ascending by `le`. -/
def sortBy {α : Type} (le : α → α → Bool) (xs : List α) : List α :=
  xs.foldr (insertBy le) []

/-- Pandas `Series.quantile(q)` with pandas' default linear interpolation: sort the
values, let `h = (n-1)·q`, and interpolate between the values at positions
`⌊h⌋` and `⌊h⌋+1`.  pandas returns NaN on an empty series; the call sites
below never reach that case, the empty result is modelled as 0. -/
def pandas_quantile (xs : List ℚ) (q : ℚ) : ℚ :=
  let s := sortBy (fun a b => a ≤ b) xs
  if s.isEmpty then 0
  else
    let n := s.length
    let h : ℚ := (n - 1 : ℚ) * q
    let j : ℕ := h.floor.toNat
    let a := s.getD j 0
    let b := s.getD (j + 1) a
    a + (h - (j : ℚ)) * (b - a)

/-- The merged frame after `merged[merged[pop] > 0]`: inner join, then drop
tracts with zero population-in-band. -/
def inhabited_tracts (gdf : List Tract) (census_df : List CensusRow) :
    List MergedTract :=
  (inner_merge gdf census_df).filter (fun r => 0 < r.pop_in_band)

/-- The value `merged['area_m2'].quantile(0.95)`, computed over the tracts that
survive the zero-population filter (as in the code: the quantile is taken
after that filter and before the outlier drop). -/
def area_95th (gdf : List Tract) (census_df : List CensusRow) : ℚ :=
  pandas_quantile ((inhabited_tracts gdf census_df).map (·.area_m2)) (95 / 100)

/-- Function `merge_geo_and_census`: inner join, drop zero-population tracts, then
drop tracts with `pop < 10` and `area > 95th percentile`
(`merged[~outlier_mask]`). -/
def merge_geo_and_census (gdf : List Tract) (census_df : List CensusRow) :
    List MergedTract :=
  let merged := inhabited_tracts gdf census_df
  let q := area_95th gdf census_df
  merged.filter (fun r => ¬(r.pop_in_band < 10 ∧ q < r.area_m2))

/-! ## EPA data processing (`EPADataAnalysis/main.py`) -/

/-- One record of `epa_utah_data.csv` as `process_epa_data` reads it.
Dates are modelled as integers in an order-preserving encoding
(`yyyymmdd`), matching the ordered comparisons the code performs on
parsed datetimes. -/
structure EpaRecord where
  date_local : ℤ
  site_number : ℤ
  local_site_name : String
  latitude : ℚ
  longitude : ℚ
  pm25_value : ℚ
deriving DecidableEq, Repr

/-- Constant `INVERSION_START = "2025-01-01"` (`EPADataAnalysis/main.py` line 39). -/
def INVERSION_START : ℤ := 20250101

/-- Constant `INVERSION_END = "2025-01-30"` (`EPADataAnalysis/main.py` line 40). -/
def INVERSION_END : ℤ := 20250130

/-- The date-window mask of `process_epa_data`
(`(df['date_local'] >= INVERSION_START) & (df['date_local'] <= INVERSION_END)`). -/
def epa_date_filter (df : List EpaRecord) : List EpaRecord :=
  df.filter (fun r => INVERSION_START ≤ r.date_local ∧ r.date_local ≤ INVERSION_END)

/-- The groupby key of the aggregation:
`['site_number', 'local_site_name', 'latitude', 'longitude']`. -/
def siteKey (r : EpaRecord) : ℤ × String × ℚ × ℚ :=
  (r.site_number, r.local_site_name, r.latitude, r.longitude)

/-- Lexicographic order on the groupby key (pandas sorts group keys). -/
def siteKeyLe (a b : ℤ × String × ℚ × ℚ) : Bool :=
  if a.1 < b.1 then true
  else if b.1 < a.1 then false
  else if a.2.1 < b.2.1 then true
  else if b.2.1 < a.2.1 then false
  else if a.2.2.1 < b.2.2.1 then true
  else if b.2.2.1 < a.2.2.1 then false
  else a.2.2.2 ≤ b.2.2.2

/-- One aggregated monitoring site (one row of `epa_sites`). -/
structure EpaSite where
  site_number : ℤ
  local_site_name : String
  latitude : ℚ
  longitude : ℚ
  pm25_value : ℚ
deriving DecidableEq, Repr

/-- Pandas `groupby([...]).agg(pm25_value = mean).reset_index()`: one row per
distinct key, in sorted key order, holding the mean `pm25_value` of that
key's records. -/
def epa_aggregate (df : List EpaRecord) : List EpaSite :=
  let keys := sortBy siteKeyLe (df.map siteKey).dedup
  keys.map fun k =>
    let matching := df.filter (fun r => siteKey r = k)
    ⟨k.1, k.2.1, k.2.2.1, k.2.2.2,
      (matching.map (·.pm25_value)).sum / matching.length⟩

/-- Function `process_epa_data` (`EPADataAnalysis/main.py` lines 164-210): filter to
the inversion window; if that leaves nothing, warn and fall back to the full
dataset; aggregate the chosen records by site.  Returns
`(epa_sites, df_filtered)`. -/
def process_epa_data (df : List EpaRecord) : List EpaSite × List EpaRecord :=
  let df_filtered := epa_date_filter df
  let df_used := if df_filtered.isEmpty then df else df_filtered
  (epa_aggregate df_used, df_used)

/-! ## The census-statistics section of `calculate_statistics.py`

Lines 169-192 operate on the ACS dataframe through its column names; only
the column-name bookkeeping decides whether the section reaches its summary
prints, so the embedding tracks the list of column names and returns
`Except.error` at the first access to a missing column (a pandas
`KeyError`). -/

/-- The 65+ `age_columns` list of `calculate_statistics.py` lines 173-174. -/
def age_65_plus_columns : List String :=
  ["B01001_020E", "B01001_021E", "B01001_022E", "B01001_023E",
   "B01001_024E", "B01001_025E", "B01001_044E", "B01001_045E",
   "B01001_046E", "B01001_047E", "B01001_048E", "B01001_049E"]

/-- Pandas `df[col] = value` for a dataframe with columns `cols`: adds the column
when absent, otherwise overwrites it in place. -/
def dfAssign (cols : List String) (col : String) : List String :=
  if col ∈ cols then cols else cols ++ [col]

/-- The census-statistics section of `calculate_statistics.py`
(lines 170-192), at the level of column names: coerce the twelve age
columns to numeric (reading each one — `KeyError` if absent), create
`pop_65_plus`, create `GEOID` from `GEO_ID` (`KeyError` if `GEO_ID` is
absent), filter rows to the two counties (columns unchanged), then select
`study_area[study_area['pop_80_plus'] > 0]` — which reads the
`pop_80_plus` column.  `Except.ok` means the section reaches its summary
prints, with the final column list. -/
def census_stats_section (cols : List String) : Except String (List String) :=
  if ¬(∀ c ∈ age_65_plus_columns, c ∈ cols) then
    Except.error "KeyError: B01001 age column"
  else if "GEO_ID" ∉ dfAssign cols "pop_65_plus" then
    Except.error "KeyError: GEO_ID"
  else if "pop_80_plus" ∈ dfAssign (dfAssign cols "pop_65_plus") "GEOID" then
    Except.ok (dfAssign (dfAssign cols "pop_65_plus") "GEOID")
  else
    Except.error "KeyError: pop_80_plus"

/-- The column header of `ACSDT5Y2023.B01001-Data.csv` as the scripts read
it: `GEO_ID`, `NAME`, then the `B01001_xxxE` estimate columns (with their
margin-of-error companions).  Listed here up to the columns the statistics
script touches. -/
def acs_header : List String :=
  ["GEO_ID", "NAME", "B01001_001E", "B01001_020E", "B01001_021E",
   "B01001_022E", "B01001_023E", "B01001_024E", "B01001_025E",
   "B01001_044E", "B01001_045E", "B01001_046E", "B01001_047E",
   "B01001_048E", "B01001_049E"]

/-! ## CSV round trip for sensor-corrected readings

The spec (section 8) requires: "writing sensor-corrected readings to CSV and
reloading must reproduce identical (lat, lon, pm25, sensor_id) tuples."  No
script under `src/` writes the corrected readings out; the repository's CSV
writer/reader pair for sensor data is
`PurpleAirSensorLocationFinder.py` (`df.to_csv(..., index=False)`) and
`load_sensor_locations` (`pd.read_csv`).  The writer below is modelled from
the spec, serialising the same way pandas does.

A CSV cell is modelled at the lexical level: the character string
`[-]d…d.d…d` is represented by its sign, its digit list (little-endian,
as `Nat.digits` produces) and the number of digits after the decimal
point.  Every float64 value pandas writes is such a terminating decimal,
represented by `Decimal` (mantissa and decimal exponent). -/

/-- A terminating decimal number `m / 10^e`: the form in which every
float64 value appears in a CSV file. -/
structure Decimal where
  m : ℤ
  e : ℕ
deriving DecidableEq, Repr

/-- The rational value of a `Decimal`. -/
def Decimal.val (d : Decimal) : ℚ := (d.m : ℚ) / 10 ^ d.e

/-- One CSV cell holding a decimal numeral: sign, digits (little-endian),
and how many of the digits sit after the decimal point. -/
structure CsvCell where
  neg : Bool
  digits : List ℕ
  fracLen : ℕ
deriving DecidableEq, Repr

/-- Serialise a decimal value into a CSV cell, as `to_csv` renders a
float64: its sign and its decimal digits. -/
def encodeDecimal (d : Decimal) : CsvCell :=
  ⟨decide (d.m < 0), Nat.digits 10 d.m.natAbs, d.e⟩

/-- Parse a CSV cell back into a number, as `read_csv` does: digits before
and after the point, scaled and signed. -/
def decodeCell (c : CsvCell) : ℚ :=
  (if c.neg then -1 else 1) * ((Nat.ofDigits 10 c.digits : ℕ) : ℚ) / 10 ^ c.fracLen

/-- One kept sensor-corrected reading with its fields as the terminating
decimals a float64 dataframe holds. -/
structure ReadingRow where
  lat : Decimal
  lon : Decimal
  pm25 : Decimal
  sensor_id : ℤ
deriving DecidableEq, Repr

/-- The (lat, lon, pm25, sensor_id) value tuple of a reading. -/
def readingTuple (r : ReadingRow) : ℚ × ℚ × ℚ × ℚ :=
  (r.lat.val, r.lon.val, r.pm25.val, (r.sensor_id : ℚ))

/-- Modelled from the spec: no script under `src/` writes the kept
sensor-corrected readings to CSV (the in-repo pair cited by the spec's
round-trip property is the master-sensor-list `to_csv` and
`load_sensor_locations`); spec sections 5 and 8 describe the readings CSV
artifact.  Serialises each row as `to_csv(index=False)` would: one line of
four numeric cells `lat, lon, pm25, sensor_id`. -/
def write_readings_csv (rows : List ReadingRow) : List (List CsvCell) :=
  rows.map fun r =>
    [encodeDecimal r.lat, encodeDecimal r.lon, encodeDecimal r.pm25,
     encodeDecimal ⟨r.sensor_id, 0⟩]

/-- Reload the readings CSV, as `pd.read_csv` parses it: each line of four
numeric cells becomes a (lat, lon, pm25, sensor_id) tuple.  A malformed
line (wrong cell count) cannot arise from `write_readings_csv`;
it is read as zeros. -/
def read_readings_csv (file : List (List CsvCell)) : List (ℚ × ℚ × ℚ × ℚ) :=
  file.map fun line =>
    match line with
    | [a, b, c, d] => (decodeCell a, decodeCell b, decodeCell c, decodeCell d)
    | _ => (0, 0, 0, 0)

/-- A concrete sensor-location lookup for concrete evaluations: sensor
100865 at (40.77, -111.91). -/
def demo_lookup : ℤ → Option (ℚ × ℚ) :=
  fun i => if i = 100865 then some (4077 / 100, -11191 / 100) else none

/-- A concrete sensor file whose `pm2.5_cf_1` column averages 40.0. -/
def demo_file : SensorFile := ⟨some 100865, true, [some 40]⟩

/-! ## Lemmas relating the three copies of the processing loop -/

theorem libStep_air_data (l : ℤ → Option (ℚ × ℚ)) (acc : LibAcc) (f : SensorFile) :
    (libStep l acc f).air_data = acc.air_data ++ (statsFileRow l f).toList := by
  obtain ⟨tok, hasCol, vals⟩ := f
  cases tok with
  | none => simp [libStep, statsFileRow]
  | some sid =>
    cases hl : l sid with
    | none => simp [libStep, statsFileRow, hl]
    | some latlon =>
      obtain ⟨lat, lon⟩ := latlon
      cases hasCol with
      | false => simp [libStep, statsFileRow, hl]
      | true =>
        cases hm : colMean vals with
        | none => simp [libStep, statsFileRow, hl, hm]
        | some raw =>
          by_cases ht : (778 / 1000 : ℚ) * raw + 265 / 100 > 500
          all_goals
            simp [libStep, statsFileRow, hl, hm, PM25_CORRECTION_SLOPE,
              PM25_CORRECTION_INTERCEPT, PM25_OUTLIER_THRESHOLD, ht]

theorem mainStep_air_data (l : ℤ → Option (ℚ × ℚ)) (acc : MainAcc) (f : SensorFile) :
    (mainStep l acc f).air_data = acc.air_data ++ (statsFileRow l f).toList := by
  obtain ⟨tok, hasCol, vals⟩ := f
  cases tok with
  | none => simp [mainStep, statsFileRow]
  | some sid =>
    cases hl : l sid with
    | none => simp [mainStep, statsFileRow, hl]
    | some latlon =>
      obtain ⟨lat, lon⟩ := latlon
      cases hasCol with
      | false => simp [mainStep, statsFileRow, hl]
      | true =>
        cases hm : colMean vals with
        | none => simp [mainStep, statsFileRow, hl, hm]
        | some raw =>
          by_cases ht : (778 / 1000 : ℚ) * raw + 265 / 100 > 500
          · simp [mainStep, statsFileRow, hl, hm, ht]
          · simp [mainStep, statsFileRow, hl, hm, ht]

theorem lib_foldl_air_data (l : ℤ → Option (ℚ × ℚ)) (files : List SensorFile) :
    ∀ acc : LibAcc,
      (files.foldl (libStep l) acc).air_data = acc.air_data ++ stats_air_data l files := by
  induction files with
  | nil => intro acc; simp [stats_air_data]
  | cons f fs ih =>
    intro acc
    rw [List.foldl_cons, ih, libStep_air_data]
    cases hr : statsFileRow l f <;>
      simp [stats_air_data, List.filterMap_cons, hr]

theorem main_foldl_air_data (l : ℤ → Option (ℚ × ℚ)) (files : List SensorFile) :
    ∀ acc : MainAcc,
      (files.foldl (mainStep l) acc).air_data = acc.air_data ++ stats_air_data l files := by
  induction files with
  | nil => intro acc; simp [stats_air_data]
  | cons f fs ih =>
    intro acc
    rw [List.foldl_cons, ih, mainStep_air_data]
    cases hr : statsFileRow l f <;>
      simp [stats_air_data, List.filterMap_cons, hr]

theorem libStep_counter_total (l : ℤ → Option (ℚ × ℚ)) (acc : LibAcc) (f : SensorFile) :
    (libStep l acc f).processed + (libStep l acc f).skipped + (libStep l acc f).outliers
      = acc.processed + acc.skipped + acc.outliers + 1 := by
  obtain ⟨tok, hasCol, vals⟩ := f
  cases tok with
  | none => simp [libStep]; omega
  | some sid =>
    cases hl : l sid with
    | none => simp [libStep, hl]; omega
    | some latlon =>
      obtain ⟨lat, lon⟩ := latlon
      cases hasCol with
      | false => simp [libStep, hl]; omega
      | true =>
        cases hm : colMean vals with
        | none => simp [libStep, hl, hm]; omega
        | some raw =>
          by_cases ht :
              PM25_CORRECTION_SLOPE * raw + PM25_CORRECTION_INTERCEPT
                > PM25_OUTLIER_THRESHOLD
          · simp [libStep, hl, hm, ht]; omega
          · simp [libStep, hl, hm, ht]; omega

theorem lib_foldl_counter_total (l : ℤ → Option (ℚ × ℚ)) (files : List SensorFile) :
    ∀ acc : LibAcc,
      (files.foldl (libStep l) acc).processed + (files.foldl (libStep l) acc).skipped
        + (files.foldl (libStep l) acc).outliers
        = acc.processed + acc.skipped + acc.outliers + files.length := by
  induction files with
  | nil => intro acc; simp
  | cons f fs ih =>
    intro acc
    rw [List.foldl_cons, ih, libStep_counter_total]
    simp
    omega

theorem statsFileRow_pm25 (l : ℤ → Option (ℚ × ℚ)) (f : SensorFile) (row : AirRow)
    (h : statsFileRow l f = some row) :
    ∃ raw, colMean f.pm25Vals = some raw ∧
      row.pm25 = (778 / 1000 : ℚ) * raw + 265 / 100 ∧ row.pm25 ≤ 500 := by
  obtain ⟨tok, hasCol, vals⟩ := f
  cases tok with
  | none => simp [statsFileRow] at h
  | some sid =>
    cases hl : l sid with
    | none => simp [statsFileRow, hl] at h
    | some latlon =>
      obtain ⟨lat, lon⟩ := latlon
      cases hasCol with
      | false => simp [statsFileRow, hl] at h
      | true =>
        cases hm : colMean vals with
        | none => simp [statsFileRow, hl, hm] at h
        | some raw =>
          by_cases ht : (778 / 1000 : ℚ) * raw + 265 / 100 > 500
          · simp [statsFileRow, hl, hm, ht] at h
          · simp [statsFileRow, hl, hm, ht] at h
            subst h
            exact ⟨raw, rfl, rfl, le_of_not_lt ht⟩

/-! ## Claim theorems -/

/-- Claim C10: the three duplicated copies of the PurpleAir sensor-processing
loop — in `PurpleAirDataAnalysis/main.py`, `purpleair_analysis.py` and
`calculate_statistics.py` — are equivalent: given the same sensor-location
lookup and the same sensor CSV files, all three produce exactly the same
list of kept (lat, lon, pm25, sensor_id) rows. -/
theorem purpleair_loops_equivalent (sensor_lookup : ℤ → Option (ℚ × ℚ))
    (csv_files : List SensorFile) :
    (process_purpleair_data_main sensor_lookup csv_files).air_data
        = stats_air_data sensor_lookup csv_files
    ∧ (process_purpleair_data sensor_lookup csv_files).air_data
        = stats_air_data sensor_lookup csv_files := by
  constructor
  · rw [process_purpleair_data_main, main_foldl_air_data]; rfl
  · rw [process_purpleair_data, lib_foldl_air_data]; rfl

/-- Claim C1: every sensor row retained by `process_purpleair_data` stores
as `pm25` the value `0.778 × mean(pm2.5_cf_1) + 2.65` for some input file of
the run, and that corrected value is at most 500 µg/m³. -/
theorem kept_rows_corrected_and_bounded (sensor_lookup : ℤ → Option (ℚ × ℚ))
    (csv_files : List SensorFile) (row : AirRow)
    (h : row ∈ (process_purpleair_data sensor_lookup csv_files).air_data) :
    row.pm25 ≤ PM25_OUTLIER_THRESHOLD ∧
      ∃ f ∈ csv_files, ∃ raw, colMean f.pm25Vals = some raw ∧
        row.pm25 = PM25_CORRECTION_SLOPE * raw + PM25_CORRECTION_INTERCEPT := by
  rw [process_purpleair_data, lib_foldl_air_data] at h
  simp only [List.nil_append, stats_air_data, List.mem_filterMap] at h
  obtain ⟨f, hf, hrow⟩ := h
  obtain ⟨raw, hraw, hpm, hle⟩ := statsFileRow_pm25 sensor_lookup f row hrow
  refine ⟨by rw [PM25_OUTLIER_THRESHOLD]; exact hle, f, hf, raw, hraw, ?_⟩
  rw [hpm, PM25_CORRECTION_SLOPE, PM25_CORRECTION_INTERCEPT]

/-- Witness for C1: a concrete run keeps the row for sensor 100865 with
pm25 = 0.778·40 + 2.65 = 33.77, and the theorem applies to it. -/
theorem kept_rows_corrected_and_bounded_witness :
    (⟨4077 / 100, -11191 / 100, 3377 / 100, 100865⟩ : AirRow).pm25
        ≤ PM25_OUTLIER_THRESHOLD ∧
      ∃ f ∈ [demo_file], ∃ raw, colMean f.pm25Vals = some raw ∧
        (⟨4077 / 100, -11191 / 100, 3377 / 100, 100865⟩ : AirRow).pm25
          = PM25_CORRECTION_SLOPE * raw + PM25_CORRECTION_INTERCEPT :=
  kept_rows_corrected_and_bounded demo_lookup [demo_file]
    ⟨4077 / 100, -11191 / 100, 3377 / 100, 100865⟩
    (by norm_num [process_purpleair_data, libStep, colMean, demo_lookup,
      demo_file, PM25_CORRECTION_SLOPE, PM25_CORRECTION_INTERCEPT,
      PM25_OUTLIER_THRESHOLD])

/-- Claim C4: per-sensor failure is non-fatal.  For a file whose name
parses to sensor id `sid`, the `purpleair_analysis.py` loop body rejects
the file (adds no row) exactly when the id is missing from the location
lookup, the `pm2.5_cf_1` column is absent, the column mean is NaN, or the
corrected value exceeds 500 µg/m³; every rejected file increments the
`skipped` or `outliers` counter, and the whole run tallies every file
(processed + skipped + outliers = number of files), so processing
continues past rejected files. -/
theorem per_sensor_failure_nonfatal (sensor_lookup : ℤ → Option (ℚ × ℚ))
    (csv_files : List SensorFile) (acc : LibAcc) (f : SensorFile) (sid : ℤ)
    (hsid : f.filenameToken = some sid) :
    ((libStep sensor_lookup acc f).air_data = acc.air_data ↔
      (sensor_lookup sid = none ∨ f.hasPm25Col = false ∨
        colMean f.pm25Vals = none ∨
        ∃ raw, colMean f.pm25Vals = some raw ∧
          PM25_OUTLIER_THRESHOLD <
            PM25_CORRECTION_SLOPE * raw + PM25_CORRECTION_INTERCEPT))
    ∧ ((libStep sensor_lookup acc f).air_data = acc.air_data →
        (libStep sensor_lookup acc f).skipped + (libStep sensor_lookup acc f).outliers
          = acc.skipped + acc.outliers + 1)
    ∧ (process_purpleair_data sensor_lookup csv_files).processed
        + (process_purpleair_data sensor_lookup csv_files).skipped
        + (process_purpleair_data sensor_lookup csv_files).outliers
        = csv_files.length := by
  refine ⟨?_, ?_, ?_⟩
  · obtain ⟨tok, hasCol, vals⟩ := f
    cases hsid
    cases hl : sensor_lookup sid with
    | none => simp [libStep, hl]
    | some latlon =>
      obtain ⟨lat, lon⟩ := latlon
      cases hasCol with
      | false => simp [libStep, hl]
      | true =>
        cases hm : colMean vals with
        | none => simp [libStep, hl, hm]
        | some raw =>
          by_cases ht : (778 / 1000 : ℚ) * raw + 265 / 100 > 500
          all_goals
            simp [libStep, hl, hm, PM25_CORRECTION_SLOPE,
              PM25_CORRECTION_INTERCEPT, PM25_OUTLIER_THRESHOLD, ht]
  · obtain ⟨tok, hasCol, vals⟩ := f
    cases hsid
    cases hl : sensor_lookup sid with
    | none => simp [libStep, hl]; omega
    | some latlon =>
      obtain ⟨lat, lon⟩ := latlon
      cases hasCol with
      | false => simp [libStep, hl]; omega
      | true =>
        cases hm : colMean vals with
        | none => simp [libStep, hl, hm]; omega
        | some raw =>
          by_cases ht : (778 / 1000 : ℚ) * raw + 265 / 100 > 500
          · simp [libStep, hl, hm, PM25_CORRECTION_SLOPE,
              PM25_CORRECTION_INTERCEPT, PM25_OUTLIER_THRESHOLD, ht]
            omega
          · simp [libStep, hl, hm, PM25_CORRECTION_SLOPE,
              PM25_CORRECTION_INTERCEPT, PM25_OUTLIER_THRESHOLD, ht]
  · rw [process_purpleair_data]
    have := lib_foldl_counter_total sensor_lookup csv_files ⟨[], 0, 0, 0⟩
    simpa using this

/-- Witness for C4: a concrete file whose sensor id is absent from the
lookup is rejected, counted, and the run tallies its single file. -/
theorem per_sensor_failure_nonfatal_witness :
    (libStep demo_lookup ⟨[], 0, 0, 0⟩ ⟨some 7, true, [some 40]⟩).air_data
        = (⟨[], 0, 0, 0⟩ : LibAcc).air_data
    ∧ (process_purpleair_data demo_lookup [⟨some 7, true, [some 40]⟩]).processed
        + (process_purpleair_data demo_lookup [⟨some 7, true, [some 40]⟩]).skipped
        + (process_purpleair_data demo_lookup [⟨some 7, true, [some 40]⟩]).outliers
        = 1 :=
  ⟨((per_sensor_failure_nonfatal demo_lookup [⟨some 7, true, [some 40]⟩]
      ⟨[], 0, 0, 0⟩ ⟨some 7, true, [some 40]⟩ 7 rfl).1).mpr
      (Or.inl (by norm_num [demo_lookup])),
   by
    have := (per_sensor_failure_nonfatal demo_lookup [⟨some 7, true, [some 40]⟩]
      ⟨[], 0, 0, 0⟩ ⟨some 7, true, [some 40]⟩ 7 rfl).2.2
    simpa using this⟩

/-- Claim C2: every tract in the output of the geo-census merge comes from
a shapefile row and a census row with the same GEOID (inner join), has
population-in-band strictly greater than 0, and does not combine an area
above the 95th-percentile area (taken, as in the code, over the tracts that
survive the zero-population filter) with a population-in-band below 10. -/
theorem merged_tracts_invariant (gdf : List Tract) (census_df : List CensusRow)
    (r : MergedTract) (h : r ∈ merge_geo_and_census gdf census_df) :
    (∃ t ∈ gdf, t.GEOID = r.GEOID) ∧ (∃ c ∈ census_df, c.GEOID = r.GEOID) ∧
      0 < r.pop_in_band ∧
      ¬(area_95th gdf census_df < r.area_m2 ∧ r.pop_in_band < 10) := by
  rw [merge_geo_and_census] at h
  simp only [List.mem_filter, decide_eq_true_eq] at h
  obtain ⟨hmem, hpred⟩ := h
  rw [inhabited_tracts] at hmem
  simp only [List.mem_filter, decide_eq_true_eq] at hmem
  obtain ⟨hmerge, hpop⟩ := hmem
  rw [inner_merge] at hmerge
  simp only [List.mem_flatMap, List.mem_filterMap] at hmerge
  obtain ⟨g, hg, c, hc, heq⟩ := hmerge
  by_cases hgc : g.GEOID = c.GEOID
  · rw [if_pos hgc] at heq
    obtain rfl := Option.some.inj heq
    exact ⟨⟨g, hg, rfl⟩, ⟨c, hc, hgc.symm⟩, hpop, fun hbad => hpred ⟨hbad.2, hbad.1⟩⟩
  · rw [if_neg hgc] at heq
    exact absurd heq (by simp)

/-- Witness for C2: a two-tract concrete merge keeps the inhabited tract and
the theorem's conclusions hold for it. -/
theorem merged_tracts_invariant_witness :
    (∃ t ∈ [(⟨"49035000100", 100⟩ : Tract), ⟨"49035000200", 7⟩],
        t.GEOID = (⟨"49035000100", 100, 50⟩ : MergedTract).GEOID)
    ∧ (∃ c ∈ [(⟨"49035000100", 50⟩ : CensusRow), ⟨"49035000200", 0⟩],
        c.GEOID = (⟨"49035000100", 100, 50⟩ : MergedTract).GEOID)
    ∧ 0 < (⟨"49035000100", 100, 50⟩ : MergedTract).pop_in_band
    ∧ ¬(area_95th [⟨"49035000100", 100⟩, ⟨"49035000200", 7⟩]
          [⟨"49035000100", 50⟩, ⟨"49035000200", 0⟩]
          < (⟨"49035000100", 100, 50⟩ : MergedTract).area_m2
        ∧ (⟨"49035000100", 100, 50⟩ : MergedTract).pop_in_band < 10) :=
  merged_tracts_invariant
    [⟨"49035000100", 100⟩, ⟨"49035000200", 7⟩]
    [⟨"49035000100", 50⟩, ⟨"49035000200", 0⟩]
    ⟨"49035000100", 100, 50⟩
    (by norm_num [merge_geo_and_census, inhabited_tracts, inner_merge,
      area_95th, pandas_quantile, sortBy, insertBy])

/-- Claim C3: AQI bucketing is a pure function of the PM2.5 value with
thresholds 12 and 35 — below 12 is Good, in [12, 35) is Moderate, 35 and
above is Unhealthy — and the same three-band classification is applied by
the analysis-plot bucketing (`get_aqi_category`), the interactive-map marker
colour (`get_pm25_color`), the marker popup status, and the legend's
colour/label association. -/
theorem aqi_bucketing_pure_and_shared (p : ℚ) :
    (get_aqi_category p = "Good" ↔ p < 12)
    ∧ (get_aqi_category p = "Moderate" ↔ 12 ≤ p ∧ p < 35)
    ∧ (get_aqi_category p = "Unhealthy" ↔ 35 ≤ p)
    ∧ (get_pm25_color p = "green" ↔ get_aqi_category p = "Good")
    ∧ (get_pm25_color p = "orange" ↔ get_aqi_category p = "Moderate")
    ∧ (get_pm25_color p = "red" ↔ get_aqi_category p = "Unhealthy")
    ∧ (marker_status p = "Good" ↔ get_aqi_category p = "Good")
    ∧ (marker_status p = "Moderate" ↔ get_aqi_category p = "Moderate")
    ∧ (marker_status p = "Unhealthy for Sensitive Groups" ↔
        get_aqi_category p = "Unhealthy")
    ∧ (get_pm25_color p, get_aqi_category p) ∈ legend_entries := by
  by_cases h12 : p < 12
  · have h35 : p < 35 := h12.trans (by norm_num)
    have hn12 : ¬(12 ≤ p) := not_le.mpr h12
    have hn35 : ¬(35 ≤ p) := not_le.mpr h35
    simp [get_aqi_category, get_pm25_color, marker_status, legend_entries,
      h12, h35, hn12, hn35]
  · by_cases h35 : p < 35
    · have hge : 12 ≤ p := not_lt.mp h12
      have hn35 : ¬(35 ≤ p) := not_le.mpr h35
      simp [get_aqi_category, get_pm25_color, marker_status, legend_entries,
        h12, h35, hge, hn35]
    · have hge35 : 35 ≤ p := not_lt.mp h35
      simp [get_aqi_category, get_pm25_color, marker_status, legend_entries,
        h12, h35, hge35]

/-- Claim C5: in `process_epa_data`, if filtering to the inversion date
window leaves no record, the full unfiltered dataset is used instead (for
both the per-site aggregation and the returned filtered frame); otherwise
the date-filtered subset is used for the per-site aggregation. -/
theorem epa_date_window_fallback (df : List EpaRecord) :
    (epa_date_filter df = [] → process_epa_data df = (epa_aggregate df, df))
    ∧ (epa_date_filter df ≠ [] →
        process_epa_data df
          = (epa_aggregate (epa_date_filter df), epa_date_filter df)) := by
  constructor
  · intro h
    simp [process_epa_data, h]
  · intro h
    simp [process_epa_data, List.isEmpty_iff, h]

/-- Claim C8: worked example — a sensor whose raw PM2.5 average is 40.0
gets corrected value 0.778 × 40.0 + 2.65 = 33.77, is kept by the processing
loop (33.77 ≤ 500), and is bucketed Moderate (12 ≤ 33.77 < 35) by the AQI
classification and marker colouring. -/
theorem worked_example_raw_40 :
    (process_purpleair_data_main demo_lookup [demo_file]).air_data
        = [⟨4077 / 100, -11191 / 100, 3377 / 100, 100865⟩]
    ∧ ((778 / 1000 : ℚ) * 40 + 265 / 100 = 3377 / 100)
    ∧ ((3377 / 100 : ℚ) ≤ 500)
    ∧ get_aqi_category (3377 / 100) = "Moderate"
    ∧ (12 ≤ (3377 / 100 : ℚ) ∧ (3377 / 100 : ℚ) < 35)
    ∧ get_pm25_color (3377 / 100) = "orange" := by
  refine ⟨?_, by norm_num, by norm_num, ?_, by norm_num, ?_⟩
  · norm_num [process_purpleair_data_main, mainStep, colMean, demo_lookup,
      demo_file]
  · norm_num [get_aqi_category]
  · norm_num [get_pm25_color]

theorem mem_dfAssign (cols : List String) (col x : String) :
    x ∈ dfAssign cols col ↔ x ∈ cols ∨ x = col := by
  rw [dfAssign]
  split
  · next hc =>
    constructor
    · exact Or.inl
    · rintro (hx | rfl)
      · exact hx
      · exact hc
  · next hc => simp [List.mem_append]

/-- Claim C9: the census-statistics section of `calculate_statistics.py`
fails for every input whose columns do not already contain `pop_80_plus`
(the ACS file's never do): the script only creates `pop_65_plus` and
`GEOID`, then filters on `pop_80_plus`, so it can never reach its summary
prints, and when the expected ACS columns are present it raises exactly the
missing-column error on `pop_80_plus`. -/
theorem census_stats_always_fails (cols : List String)
    (h : "pop_80_plus" ∉ cols) :
    (∀ out, census_stats_section cols ≠ Except.ok out)
    ∧ ((∀ c ∈ age_65_plus_columns, c ∈ cols) → "GEO_ID" ∈ cols →
        census_stats_section cols = Except.error "KeyError: pop_80_plus") := by
  have hmem : "pop_80_plus" ∉ dfAssign (dfAssign cols "pop_65_plus") "GEOID" := by
    simp only [mem_dfAssign]
    rintro ((hx | hx) | hx)
    · exact h hx
    · exact absurd hx (by decide)
    · exact absurd hx (by decide)
  constructor
  · intro out hok
    by_cases h1 : ∀ c ∈ age_65_plus_columns, c ∈ cols
    · by_cases h2 : "GEO_ID" ∉ dfAssign cols "pop_65_plus"
      · rw [census_stats_section, if_neg (not_not.mpr h1), if_pos h2] at hok
        exact Except.noConfusion hok
      · rw [census_stats_section, if_neg (not_not.mpr h1), if_neg h2,
          if_neg hmem] at hok
        exact Except.noConfusion hok
    · rw [census_stats_section, if_pos h1] at hok
      exact Except.noConfusion hok
  · intro hall hgeo
    rw [census_stats_section, if_neg (not_not.mpr hall),
      if_neg (not_not.mpr ((mem_dfAssign cols "pop_65_plus" "GEO_ID").mpr
        (Or.inl hgeo))),
      if_neg hmem]

/-- Witness for C9: on the actual ACS header the census-statistics section
errors on the missing `pop_80_plus` column. -/
theorem census_stats_always_fails_witness :
    census_stats_section acs_header = Except.error "KeyError: pop_80_plus" :=
  (census_stats_always_fails acs_header (by decide)).2 (by decide) (by decide)

theorem decodeCell_encodeDecimal (d : Decimal) :
    decodeCell (encodeDecimal d) = d.val := by
  rw [decodeCell, encodeDecimal, Decimal.val]
  simp only [Nat.ofDigits_digits]
  rcases lt_or_le d.m 0 with hm | hm
  · rw [if_pos (decide_eq_true hm), Int.cast_natAbs, abs_of_neg hm]
    push_cast
    ring
  · rw [if_neg (by simp [not_lt.mpr hm]), Int.cast_natAbs, abs_of_nonneg hm]
    ring

/-- Claim C7: round trip — writing any list of kept sensor-corrected
readings to CSV and reloading the CSV reproduces exactly the original
(lat, lon, pm25, sensor_id) tuples. -/
theorem readings_csv_roundtrip (rows : List ReadingRow) :
    read_readings_csv (write_readings_csv rows) = rows.map readingTuple := by
  induction rows with
  | nil => rfl
  | cons r rs ih =>
    simp only [write_readings_csv, List.map_cons, read_readings_csv] at ih ⊢
    rw [ih]
    simp [readingTuple, decodeCell_encodeDecimal, Decimal.val]
